import Mathlib

/- Shallow embedding of the concurrent translation-orchestration engine of the
   CiscoPacketTracerMultiLanguageTranslator repository: the retry/backoff loop
   of src/aoai_async_client.py (translate_one_async), the outcome-application
   path of src/cli.py (worker and the run coordinator), the progress reporter of
   src/progress.py and the usage totals of src/pricing.py. -/

namespace TsTranslate

/-- Model of a Python exception as classified by the client: whether it is a
BadRequestError, the Azure error code extracted from its response body, and its
message. -/
structure Exc where
  isBadRequestError : Bool
  errorCode : String
  message : String
deriving DecidableEq, Repr

/-- Embeds src/aoai_async_client.py _is_content_filter_error: the exception is a
BadRequestError and its extracted Azure error code equals "content_filter". -/
def isContentFilterError (e : Exc) : Bool :=
  e.isBadRequestError && e.errorCode == "content_filter"

/-- Embeds the TranslateResult dataclass of src/aoai_async_client.py. -/
structure TranslateResult where
  ok : Bool
  text : String
  input_tokens : Nat
  output_tokens : Nat
  error_code : String
  error_message : String
deriving DecidableEq, Repr

/-- One remote call attempt as seen at the adapter boundary: either the awaited
response (output text and usage tokens) or a raised exception. -/
inductive CallAttempt where
  | ok (text : String) (inputTokens outputTokens : Nat)
  | exc (e : Exc)

/-- Model of Python str.strip(): drop whitespace characters from both ends of
the string. -/
def pyStrip (s : String) : String :=
  ⟨((s.data.dropWhile Char.isWhitespace).reverse.dropWhile Char.isWhitespace).reverse⟩

/-- Embeds the success path of translate_one_async: the response text is
stripped, usage tokens are read off the response. -/
def okResult (text : String) (inputTokens outputTokens : Nat) : TranslateResult :=
  ⟨true, pyStrip text, inputTokens, outputTokens, "", ""⟩

/-- Embeds the content_filter path of translate_one_async: ok=False, empty
text, zero tokens, error_code "content_filter". -/
def cfResult (e : Exc) : TranslateResult :=
  ⟨false, "", 0, 0, "content_filter", e.message⟩

/-- Embeds the deterministic part of the backoff formula of
translate_one_async: min(30.0, (2 ** attempt) * 0.5), over the rationals. -/
def backoffBase (attempt : Nat) : ℚ :=
  min 30 ((2 ^ attempt : ℚ) * (1 / 2))

/-- How one invocation of translate_one_async terminates: a returned
TranslateResult, or a raised exception escaping the task. -/
inductive LoopOutcome where
  | returned (r : TranslateResult)
  | raised (e : Exc)
deriving DecidableEq, Repr

/-- Trace of one invocation of translate_one_async: its termination, the number
of adapter calls made, and the list of backoff delays slept (in attempt
order). -/
structure LoopTrace where
  outcome : LoopOutcome
  calls : Nat
  sleeps : List ℚ
deriving DecidableEq, Repr

/-- Embeds the retry loop of translate_one_async. The adapter maps the attempt
number to that attempt's outcome; jitter maps the attempt number to the value
drawn by random.uniform(0, 0.25). The second Nat is the number of retries still
allowed after the current attempt, so the Python guard attempt >= max_retries
is the case left = 0. -/
def loopGo (adapter : Nat → CallAttempt) (jitter : Nat → ℚ) :
    Nat → Nat → LoopTrace
  | attempt, 0 =>
    match adapter attempt with
    | .ok t it ot => ⟨.returned (okResult t it ot), 1, []⟩
    | .exc e =>
      if isContentFilterError e then ⟨.returned (cfResult e), 1, []⟩
      else ⟨.raised e, 1, []⟩
  | attempt, left + 1 =>
    match adapter attempt with
    | .ok t it ot => ⟨.returned (okResult t it ot), 1, []⟩
    | .exc e =>
      if isContentFilterError e then ⟨.returned (cfResult e), 1, []⟩
      else
        let rest := loopGo adapter jitter (attempt + 1) left
        ⟨rest.outcome, rest.calls + 1, (backoffBase attempt + jitter attempt) :: rest.sleeps⟩

/-- Embeds translate_one_async of src/aoai_async_client.py: attempts run from 0
to max_retries inclusive. -/
def translate_one_async (adapter : Nat → CallAttempt) (jitter : Nat → ℚ)
    (maxRetries : Nat) : LoopTrace :=
  loopGo adapter jitter 0 maxRetries

/-- Embeds asyncio.gather over the worker tasks of src/cli.py _run: the first
task outcome that is a raised exception aborts the whole batch await. -/
def gatherAborts (outcomes : List LoopOutcome) : Option Exc :=
  outcomes.findSome? fun o =>
    match o with
    | .raised e => some e
    | .returned _ => none

/-- Embeds the UsageTotals dataclass of src/pricing.py. -/
structure UsageTotals where
  input_tokens : Nat
  output_tokens : Nat
deriving DecidableEq, Repr

/-- Embeds UsageTotals.add of src/pricing.py. -/
def UsageTotals.add (u : UsageTotals) (i o : Nat) : UsageTotals :=
  ⟨u.input_tokens + i, u.output_tokens + o⟩

/-- Model of a <translation> XML element of the TS document: its text and its
"type" attribute (the only attribute the core reads or writes). -/
structure TranslationElem where
  text : Option String
  typeAttr : Option String
deriving DecidableEq, Repr

/-- Embeds _text of src/cli.py: the element text, or empty string, stripped. -/
def tsText (t : Option String) : String := pyStrip (t.getD "")

/-- Embeds _should_translate of src/cli.py: translate when the type attribute
is "unfinished" or the stripped text is empty. -/
def shouldTranslate (tr : TranslationElem) : Bool :=
  tr.typeAttr == some "unfinished" || tsText tr.text == ""

/-- Model of one <message> of the TS document after _iter_ts_items has read it:
context name, stripped source text, and its translation element. -/
structure TsMessage where
  context_name : String
  source_text : String
  translation : TranslationElem
deriving DecidableEq, Repr

/-- Embeds _iter_ts_items of src/cli.py: messages with a nonempty stripped
source, in document order. -/
def iterTsItems (msgs : List TsMessage) : List TsMessage :=
  msgs.filter fun m => m.source_text ≠ ""

/-- Embeds _count_candidates of src/cli.py: the number of messages yielded by
_iter_ts_items. -/
def countCandidates (msgs : List TsMessage) : Nat :=
  (iterTsItems msgs).length

/-- Embeds the target-collection loop of _run in src/cli.py: the candidates
whose translation element satisfies _should_translate. -/
def eligibleTargets (msgs : List TsMessage) : List TsMessage :=
  (iterTsItems msgs).filter fun m => shouldTranslate m.translation

/-- Embeds the ProgressReporter dataclass of src/progress.py (total and every;
the start time only feeds the printed elapsed value). -/
structure ProgressReporter where
  total : Nat
  every : Int
deriving DecidableEq, Repr

/-- Embeds the guard chain of ProgressReporter.maybe_print of src/progress.py:
true exactly when a progress line is printed. -/
def ProgressReporter.shouldPrint (rep : ProgressReporter) (translated : Nat) : Bool :=
  if rep.every ≤ 0 then false
  else if translated = 0 then false
  else if (translated : Int) % rep.every ≠ 0 ∧ translated ≠ rep.total then false
  else true

/-- Embeds line 248 of src/cli.py: the reporter is constructed with
total_candidates (not with the eligible-target count). -/
def reporterFor (msgs : List TsMessage) (progressEvery : Int) : ProgressReporter :=
  ⟨countCandidates msgs, progressEvery⟩

/-- Embeds the record appended by _write_failed_log in the worker of
src/cli.py. -/
structure FailRecord where
  index : Nat
  context : String
  source : String
  error_code : String
deriving DecidableEq, Repr

/-- The shared mutable run state of _run in src/cli.py: counters, token
totals, the append-only failure log, the progress lines emitted, and the
processed values at which a checkpoint write succeeded or failed. -/
structure RunState where
  translated : Nat
  failed : Nat
  skipped : Nat
  usage : UsageTotals
  failLog : List FailRecord
  reports : List (Nat × Nat)
  checkpointsWritten : List Nat
  checkpointsFailed : List Nat
deriving DecidableEq, Repr

/-- The run state at the start of _run: zero counters apart from the
pre-existing skipped count. -/
def initialState (skipped : Nat) : RunState :=
  ⟨0, 0, skipped, ⟨0, 0⟩, [], [], [], []⟩

/-- Embeds the result branch of the worker in src/cli.py, under the lock: on
ok, set the translation text, pop the type attribute, add usage, increment
translated; otherwise set type="unfinished", increment failed, append the
failure record. -/
def applyResult (index : Nat) (context source : String) (r : TranslateResult)
    (elem : TranslationElem) (st : RunState) : TranslationElem × RunState :=
  if r.ok then
    (⟨some r.text, none⟩,
     { st with translated := st.translated + 1,
               usage := st.usage.add r.input_tokens r.output_tokens })
  else
    ({ elem with typeAttr := some "unfinished" },
     { st with failed := st.failed + 1,
               failLog := st.failLog ++ [⟨index, context, source, r.error_code⟩] })

/-- Embeds the reporter.maybe_print call of the worker: record a progress line
when shouldPrint holds for processed = translated + failed. -/
def applyProgress (rep : ProgressReporter) (st : RunState) : RunState :=
  let processed := st.translated + st.failed
  if rep.shouldPrint processed then
    { st with reports := st.reports ++ [(processed, st.skipped)] }
  else st

/-- The checkpoint-cadence condition of the worker of src/cli.py, as a Boolean:
save_every > 0 and processed is a multiple of save_every. -/
def cpFires (saveEvery : Int) (p : Nat) : Bool :=
  decide (0 < saveEvery ∧ (p : Int) % saveEvery = 0)

/-- Embeds the checkpoint block of the worker: when save_every > 0 and
processed is a multiple of it, attempt the partial write; cpWriteOk tells
whether tree.write succeeds for that processed value, and a failure is caught
and only logged. -/
def applyCheckpoint (saveEvery : Int) (cpWriteOk : Nat → Bool) (st : RunState) :
    RunState :=
  let processed := st.translated + st.failed
  if 0 < saveEvery ∧ (processed : Int) % saveEvery = 0 then
    if cpWriteOk processed then
      { st with checkpointsWritten := st.checkpointsWritten ++ [processed] }
    else
      { st with checkpointsFailed := st.checkpointsFailed ++ [processed] }
  else st

/-- The whole lock-protected tail of the worker of src/cli.py: result branch,
then progress, then checkpoint. -/
def applyOutcome (saveEvery : Int) (rep : ProgressReporter) (cpWriteOk : Nat → Bool)
    (index : Nat) (context source : String) (r : TranslateResult)
    (elem : TranslationElem) (st : RunState) : TranslationElem × RunState :=
  let p := applyResult index context source r elem st
  (p.1, applyCheckpoint saveEvery cpWriteOk (applyProgress rep p.2))

/-- One worker task whose remote call returned (did not raise): its enumerate
index, context, source, its translation element, and the TranslateResult it
will apply. -/
structure WorkItem where
  index : Nat
  context : String
  source : String
  elem : TranslationElem
  result : TranslateResult
deriving DecidableEq, Repr

/-- The serialized sequence of lock-protected outcome applications: the lock of
_run serializes them, so any completion order is some list order. -/
def runSeq (saveEvery : Int) (rep : ProgressReporter) (cpWriteOk : Nat → Bool)
    (items : List WorkItem) (st : RunState) : RunState :=
  items.foldl
    (fun s w =>
      (applyOutcome saveEvery rep cpWriteOk w.index w.context w.source w.result w.elem s).2)
    st

/-- Embeds partial_path of _run in src/cli.py: Path(output).with_suffix(suffix
plus ".partial"), which appends ".partial" to the output path. -/
def partialPath (output : String) : String := output ++ ".partial"

/-- Embeds _run after asyncio.gather: the serialized applications followed by
the one unconditional tree.write to the output path; the second component is
the list of final-write destinations. -/
def runFull (saveEvery : Int) (rep : ProgressReporter) (cpWriteOk : Nat → Bool)
    (outputPath : String) (items : List WorkItem) (skipped : Nat) :
    RunState × List String :=
  (runSeq saveEvery rep cpWriteOk items (initialState skipped), [outputPath])

/-- Phase of one worker task with respect to the admission semaphore of _run:
before acquiring the slot, inside translate_one_async holding a slot, or after
releasing it. -/
inductive TaskPhase where
  | waiting
  | inCall
  | finished
deriving DecidableEq, Repr

/-- Whether a task phase is the in-adapter phase. -/
def isInCall : TaskPhase → Bool
  | .inCall => true
  | _ => false

/-- Number of tasks currently inside the Translation Call Adapter, holding a
semaphore slot. -/
def inCallCount (ts : List TaskPhase) : Nat :=
  (ts.filter isInCall).length

/-- Embeds the asyncio.Semaphore discipline of the worker in src/cli.py: a task
enters the adapter only when fewer than N slots are held (async with sem), and
leaves by releasing its slot. -/
inductive SemStep (N : Nat) : List TaskPhase → List TaskPhase → Prop where
  | acquire (ts : List TaskPhase) (i : Nat) (h : ts.get? i = some .waiting)
      (hcap : inCallCount ts < N) : SemStep N ts (ts.set i .inCall)
  | release (ts : List TaskPhase) (i : Nat) (h : ts.get? i = some .inCall) :
      SemStep N ts (ts.set i .finished)

/-- States of the n fanned-out tasks reachable from the all-waiting start under
the semaphore discipline, along any interleaving. -/
def SemReachable (N n : Nat) (ts : List TaskPhase) : Prop :=
  Relation.ReflTransGen (SemStep N) (List.replicate n .waiting) ts

/-- Concrete content_filter rejection: a BadRequestError whose Azure error
code is "content_filter". -/
def demoCfExc : Exc := ⟨true, "content_filter", "blocked by content policy"⟩

/-- Concrete transient failure: a connection error, not a BadRequestError. -/
def demoTrExc : Exc := ⟨false, "", "connection reset"⟩

/-- Adapter whose every attempt raises the content_filter rejection. -/
def demoCfAdapter : Nat → CallAttempt := fun _ => .exc demoCfExc

/-- Adapter whose every attempt raises the transient failure. -/
def demoTrAdapter : Nat → CallAttempt := fun _ => .exc demoTrExc

/-- Concrete successful TranslateResult. -/
def demoResult : TranslateResult := ⟨true, "Hola", 3, 4, "", ""⟩

/-- Concrete empty translation element. -/
def demoElem : TranslationElem := ⟨none, none⟩

/-- Concrete work item applying a successful result. -/
def demoItem : WorkItem := ⟨1, "MainForm", "Hello", demoElem, demoResult⟩

/-- Two-message document in which the first candidate is already translated and
only the second is an eligible target. -/
def demoMsgs : List TsMessage :=
  [⟨"MainForm", "Hello", ⟨some "Bonjour", none⟩⟩,
   ⟨"MainForm", "World", ⟨none, none⟩⟩]

section HelperLemmas

@[simp]
theorem applyProgress_translated (rep : ProgressReporter) (st : RunState) :
    (applyProgress rep st).translated = st.translated := by
  simp only [applyProgress]; split <;> rfl

@[simp]
theorem applyProgress_failed (rep : ProgressReporter) (st : RunState) :
    (applyProgress rep st).failed = st.failed := by
  simp only [applyProgress]; split <;> rfl

@[simp]
theorem applyProgress_skipped (rep : ProgressReporter) (st : RunState) :
    (applyProgress rep st).skipped = st.skipped := by
  simp only [applyProgress]; split <;> rfl

@[simp]
theorem applyProgress_usage (rep : ProgressReporter) (st : RunState) :
    (applyProgress rep st).usage = st.usage := by
  simp only [applyProgress]; split <;> rfl

@[simp]
theorem applyProgress_failLog (rep : ProgressReporter) (st : RunState) :
    (applyProgress rep st).failLog = st.failLog := by
  simp only [applyProgress]; split <;> rfl

@[simp]
theorem applyProgress_cw (rep : ProgressReporter) (st : RunState) :
    (applyProgress rep st).checkpointsWritten = st.checkpointsWritten := by
  simp only [applyProgress]; split <;> rfl

@[simp]
theorem applyProgress_cf (rep : ProgressReporter) (st : RunState) :
    (applyProgress rep st).checkpointsFailed = st.checkpointsFailed := by
  simp only [applyProgress]; split <;> rfl

@[simp]
theorem applyCheckpoint_translated (saveEvery : Int) (cp : Nat → Bool) (st : RunState) :
    (applyCheckpoint saveEvery cp st).translated = st.translated := by
  simp only [applyCheckpoint]; split_ifs <;> rfl

@[simp]
theorem applyCheckpoint_failed (saveEvery : Int) (cp : Nat → Bool) (st : RunState) :
    (applyCheckpoint saveEvery cp st).failed = st.failed := by
  simp only [applyCheckpoint]; split_ifs <;> rfl

@[simp]
theorem applyCheckpoint_skipped (saveEvery : Int) (cp : Nat → Bool) (st : RunState) :
    (applyCheckpoint saveEvery cp st).skipped = st.skipped := by
  simp only [applyCheckpoint]; split_ifs <;> rfl

@[simp]
theorem applyCheckpoint_usage (saveEvery : Int) (cp : Nat → Bool) (st : RunState) :
    (applyCheckpoint saveEvery cp st).usage = st.usage := by
  simp only [applyCheckpoint]; split_ifs <;> rfl

@[simp]
theorem applyCheckpoint_failLog (saveEvery : Int) (cp : Nat → Bool) (st : RunState) :
    (applyCheckpoint saveEvery cp st).failLog = st.failLog := by
  simp only [applyCheckpoint]; split_ifs <;> rfl

@[simp]
theorem applyCheckpoint_reports (saveEvery : Int) (cp : Nat → Bool) (st : RunState) :
    (applyCheckpoint saveEvery cp st).reports = st.reports := by
  simp only [applyCheckpoint]; split_ifs <;> rfl

theorem applyCheckpoint_cw (saveEvery : Int) (cp : Nat → Bool) (st : RunState) :
    (applyCheckpoint saveEvery cp st).checkpointsWritten =
      st.checkpointsWritten ++
        (if cpFires saveEvery (st.translated + st.failed) then
          (if cp (st.translated + st.failed) then [st.translated + st.failed] else [])
        else []) := by
  simp only [applyCheckpoint, cpFires, decide_eq_true_eq]
  split_ifs <;> simp_all

theorem applyResult_processed (index : Nat) (context source : String)
    (r : TranslateResult) (elem : TranslationElem) (st : RunState) :
    (applyResult index context source r elem st).2.translated +
      (applyResult index context source r elem st).2.failed =
      st.translated + st.failed + 1 := by
  simp only [applyResult]; split_ifs <;> simp <;> omega

@[simp]
theorem applyResult_cw (index : Nat) (context source : String)
    (r : TranslateResult) (elem : TranslationElem) (st : RunState) :
    (applyResult index context source r elem st).2.checkpointsWritten =
      st.checkpointsWritten := by
  simp only [applyResult]; split_ifs <;> rfl

theorem applyOutcome_processed (saveEvery : Int) (rep : ProgressReporter)
    (cp : Nat → Bool) (index : Nat) (context source : String) (r : TranslateResult)
    (elem : TranslationElem) (st : RunState) :
    (applyOutcome saveEvery rep cp index context source r elem st).2.translated +
      (applyOutcome saveEvery rep cp index context source r elem st).2.failed =
      st.translated + st.failed + 1 := by
  simp only [applyOutcome, applyCheckpoint_translated, applyCheckpoint_failed,
    applyProgress_translated, applyProgress_failed]
  exact applyResult_processed index context source r elem st

theorem applyOutcome_cw (saveEvery : Int) (rep : ProgressReporter)
    (cp : Nat → Bool) (index : Nat) (context source : String) (r : TranslateResult)
    (elem : TranslationElem) (st : RunState) :
    (applyOutcome saveEvery rep cp index context source r elem st).2.checkpointsWritten =
      st.checkpointsWritten ++
        (if cpFires saveEvery (st.translated + st.failed + 1) then
          (if cp (st.translated + st.failed + 1) then [st.translated + st.failed + 1] else [])
        else []) := by
  simp only [applyOutcome, applyCheckpoint_cw, applyProgress_translated,
    applyProgress_failed, applyProgress_cw, applyResult_cw]
  rw [applyResult_processed]

theorem runSeq_nil (saveEvery : Int) (rep : ProgressReporter) (cp : Nat → Bool)
    (st : RunState) : runSeq saveEvery rep cp [] st = st := rfl

theorem runSeq_cons (saveEvery : Int) (rep : ProgressReporter) (cp : Nat → Bool)
    (w : WorkItem) (ws : List WorkItem) (st : RunState) :
    runSeq saveEvery rep cp (w :: ws) st =
      runSeq saveEvery rep cp ws
        (applyOutcome saveEvery rep cp w.index w.context w.source w.result w.elem st).2 := rfl

theorem runSeq_cw_all_ok (saveEvery : Int) (rep : ProgressReporter)
    (l : List WorkItem) (st : RunState) :
    (runSeq saveEvery rep (fun _ => true) l st).checkpointsWritten =
      st.checkpointsWritten ++
        (List.range' (st.translated + st.failed + 1) l.length).filter (cpFires saveEvery) := by
  induction l generalizing st with
  | nil => simp [runSeq_nil]
  | cons w ws ih =>
    rw [runSeq_cons, ih, applyOutcome_cw, applyOutcome_processed]
    rw [List.length_cons, List.range'_succ, List.filter_cons]
    cases h : cpFires saveEvery (st.translated + st.failed + 1) <;>
      simp [h, List.append_assoc]

theorem runSeq_processed (saveEvery : Int) (rep : ProgressReporter)
    (cp : Nat → Bool) (l : List WorkItem) (st : RunState) :
    (runSeq saveEvery rep cp l st).translated + (runSeq saveEvery rep cp l st).failed =
      st.translated + st.failed + l.length := by
  induction l generalizing st with
  | nil => simp [runSeq_nil]
  | cons w ws ih =>
    rw [runSeq_cons, ih, applyOutcome_processed, List.length_cons]
    omega

theorem loopGo_calls_pos (adapter : Nat → CallAttempt) (jitter : Nat → ℚ)
    (left attempt : Nat) : 1 ≤ (loopGo adapter jitter attempt left).calls := by
  cases left with
  | zero =>
    cases h : adapter attempt with
    | ok t it ot => simp [loopGo, h]
    | exc e => simp only [loopGo, h]; split_ifs <;> simp
  | succ n =>
    cases h : adapter attempt with
    | ok t it ot => simp [loopGo, h]
    | exc e => simp only [loopGo, h]; split_ifs <;> simp

theorem loopGo_sleeps (adapter : Nat → CallAttempt) (jitter : Nat → ℚ)
    (left attempt : Nat) :
    (loopGo adapter jitter attempt left).sleeps =
      (List.range' attempt ((loopGo adapter jitter attempt left).calls - 1)).map
        (fun a => backoffBase a + jitter a) := by
  induction left generalizing attempt with
  | zero =>
    cases h : adapter attempt with
    | ok t it ot => simp [loopGo, h]
    | exc e => simp only [loopGo, h]; split_ifs <;> simp
  | succ n ih =>
    cases h : adapter attempt with
    | ok t it ot => simp [loopGo, h]
    | exc e =>
      simp only [loopGo, h]
      split_ifs with hcf
      · simp
      · have hpos := loopGo_calls_pos adapter jitter n (attempt + 1)
        simp only
        obtain ⟨c, hc⟩ : ∃ c, (loopGo adapter jitter (attempt + 1) n).calls = c + 1 :=
          ⟨(loopGo adapter jitter (attempt + 1) n).calls - 1, by omega⟩
        rw [ih (attempt + 1), hc]
        simp [List.range'_succ]

theorem loopGo_transient (adapter : Nat → CallAttempt) (jitter : Nat → ℚ)
    (h : ∀ a, ∃ e, adapter a = .exc e ∧ isContentFilterError e = false)
    (left attempt : Nat) :
    (loopGo adapter jitter attempt left).calls = left + 1 ∧
      ∃ e, (loopGo adapter jitter attempt left).outcome = .raised e := by
  induction left generalizing attempt with
  | zero =>
    obtain ⟨e, he, hcf⟩ := h attempt
    simp [loopGo, he, hcf]
  | succ n ih =>
    obtain ⟨e, he, hcf⟩ := h attempt
    obtain ⟨hc, e', ho⟩ := ih (attempt + 1)
    refine ⟨?_, e', ?_⟩ <;> simp [loopGo, he, hcf, hc, ho]

theorem loopGo_outcomes (adapter : Nat → CallAttempt) (jitter : Nat → ℚ)
    (left attempt : Nat) :
    (∃ r, (loopGo adapter jitter attempt left).outcome = .returned r ∧
        (r.ok = true ∨ r.error_code = "content_filter")) ∨
    (∃ e, (loopGo adapter jitter attempt left).outcome = .raised e ∧
        isContentFilterError e = false ∧
        (loopGo adapter jitter attempt left).calls = left + 1) := by
  induction left generalizing attempt with
  | zero =>
    cases h : adapter attempt with
    | ok t it ot => exact Or.inl ⟨okResult t it ot, by simp [loopGo, h], Or.inl rfl⟩
    | exc e =>
      by_cases hcf : isContentFilterError e = true
      · exact Or.inl ⟨cfResult e, by simp [loopGo, h, hcf], Or.inr rfl⟩
      · exact Or.inr ⟨e, by simp [loopGo, h, hcf], by simpa using hcf, by simp [loopGo, h, hcf]⟩
  | succ n ih =>
    cases h : adapter attempt with
    | ok t it ot => exact Or.inl ⟨okResult t it ot, by simp [loopGo, h], Or.inl rfl⟩
    | exc e =>
      by_cases hcf : isContentFilterError e = true
      · exact Or.inl ⟨cfResult e, by simp [loopGo, h, hcf], Or.inr rfl⟩
      · rcases ih (attempt + 1) with ⟨r, hr, hcase⟩ | ⟨e', he', hcf', hc'⟩
        · exact Or.inl ⟨r, by simp [loopGo, h, hcf, hr], hcase⟩
        · exact Or.inr ⟨e', by simp [loopGo, h, hcf, he'],
            hcf', by simp [loopGo, h, hcf, hc']⟩

@[simp]
theorem inCallCount_nil : inCallCount [] = 0 := rfl

theorem inCallCount_cons (p : TaskPhase) (ts : List TaskPhase) :
    inCallCount (p :: ts) = inCallCount ts + (if isInCall p = true then 1 else 0) := by
  cases hp : isInCall p <;> simp [inCallCount, List.filter_cons, hp]

theorem inCallCount_replicate (n : Nat) :
    inCallCount (List.replicate n .waiting) = 0 := by
  induction n with
  | zero => rfl
  | succ k ih =>
    rw [List.replicate_succ, inCallCount_cons, ih]
    rfl

theorem inCallCount_set_le (l : List TaskPhase) (i : Nat) (v : TaskPhase) :
    inCallCount (l.set i v) ≤ inCallCount l + 1 := by
  induction l generalizing i with
  | nil => simp
  | cons hd tl ih =>
    cases i with
    | zero =>
      rw [List.set_cons_zero, inCallCount_cons, inCallCount_cons]
      split_ifs <;> omega
    | succ j =>
      rw [List.set_cons_succ, inCallCount_cons, inCallCount_cons]
      have := ih j
      split_ifs <;> omega

theorem inCallCount_set_not (l : List TaskPhase) (i : Nat) (v : TaskPhase)
    (hv : isInCall v = false) :
    inCallCount (l.set i v) ≤ inCallCount l := by
  induction l generalizing i with
  | nil => simp
  | cons hd tl ih =>
    cases i with
    | zero =>
      rw [List.set_cons_zero, inCallCount_cons, inCallCount_cons]
      have hv2 : (if isInCall v = true then 1 else 0) = 0 := by simp [hv]
      rw [hv2]
      split_ifs <;> omega
    | succ j =>
      rw [List.set_cons_succ, inCallCount_cons, inCallCount_cons]
      have := ih j
      split_ifs <;> omega

theorem semStep_preserves_cap (N : Nat) (a b : List TaskPhase)
    (hstep : SemStep N a b) (h : inCallCount a ≤ N) : inCallCount b ≤ N := by
  cases hstep with
  | acquire i hget hcap =>
    have := inCallCount_set_le a i TaskPhase.inCall
    omega
  | release i hget =>
    have := inCallCount_set_not a i TaskPhase.finished rfl
    omega

end HelperLemmas

/-- Claim C1: when every remote call attempt raises a content_filter
(ContentPolicy) rejection, translate_one_async makes exactly one call, never
sleeps, and immediately returns the non-ok content_filter result; the worker's
outcome application then sets the translation element's type attribute to
"unfinished", increments the failed counter, appends one structured record
(index, context, source text, error code) to the append-only failure log, and
the batch gather sees no raised exception, so the run continues. -/
theorem c1_content_filter_single_attempt
    (adapter : Nat → CallAttempt) (jitter : Nat → ℚ) (maxRetries : Nat) (e : Exc)
    (hcf : isContentFilterError e = true) (hada : ∀ a, adapter a = .exc e)
    (saveEvery : Int) (rep : ProgressReporter) (cp : Nat → Bool)
    (index : Nat) (context source : String) (elem : TranslationElem) (st : RunState) :
    (translate_one_async adapter jitter maxRetries).calls = 1 ∧
    (translate_one_async adapter jitter maxRetries).sleeps = [] ∧
    (translate_one_async adapter jitter maxRetries).outcome = .returned (cfResult e) ∧
    (applyOutcome saveEvery rep cp index context source (cfResult e) elem st).1.typeAttr
      = some "unfinished" ∧
    (applyOutcome saveEvery rep cp index context source (cfResult e) elem st).2.failed
      = st.failed + 1 ∧
    (applyOutcome saveEvery rep cp index context source (cfResult e) elem st).2.failLog
      = st.failLog ++ [⟨index, context, source, "content_filter"⟩] ∧
    gatherAborts [(translate_one_async adapter jitter maxRetries).outcome] = none := by
  have hloop : translate_one_async adapter jitter maxRetries =
      ⟨.returned (cfResult e), 1, []⟩ := by
    cases maxRetries <;> simp [translate_one_async, loopGo, hada 0, hcf]
  refine ⟨by rw [hloop], by rw [hloop], by rw [hloop], ?_, ?_, ?_, by rw [hloop]; rfl⟩
  · simp [applyOutcome, applyResult, cfResult]
  · simp [applyOutcome, applyResult, cfResult]
  · simp [applyOutcome, applyResult, cfResult]

/-- Claim C2: when every remote call attempt raises a transient
(non-content_filter) failure, translate_one_async makes exactly
max_retries + 1 call attempts and terminates by raising the last exception out
of its task instead of returning a per-unit result, and a batch gather over
such a task aborts with that exception. -/
theorem c2_exhaustion_aborts_run (adapter : Nat → CallAttempt) (jitter : Nat → ℚ)
    (maxRetries : Nat)
    (h : ∀ a, ∃ e, adapter a = .exc e ∧ isContentFilterError e = false) :
    (translate_one_async adapter jitter maxRetries).calls = maxRetries + 1 ∧
    (∀ r, (translate_one_async adapter jitter maxRetries).outcome ≠ .returned r) ∧
    (∃ e, (translate_one_async adapter jitter maxRetries).outcome = .raised e ∧
      gatherAborts [(translate_one_async adapter jitter maxRetries).outcome] = some e) := by
  obtain ⟨hc, e, ho⟩ := loopGo_transient adapter jitter h maxRetries 0
  have ho' : (translate_one_async adapter jitter maxRetries).outcome = .raised e := ho
  refine ⟨hc, ?_, e, ho', ?_⟩
  · intro r hr
    rw [ho'] at hr
    exact absurd hr (by simp)
  · rw [ho']
    rfl

/-- Claim C5: applying a successful outcome sets the unit's translation text
to the returned text, removes any prior type marker (in particular the
"unfinished" marker), adds the result's input and output token counts to the
running totals, and increments the translated counter by one. -/
theorem c5_success_application (saveEvery : Int) (rep : ProgressReporter)
    (cp : Nat → Bool) (index : Nat) (context source : String) (r : TranslateResult)
    (elem : TranslationElem) (st : RunState) (h : r.ok = true) :
    (applyOutcome saveEvery rep cp index context source r elem st).1 =
      ⟨some r.text, none⟩ ∧
    (applyOutcome saveEvery rep cp index context source r elem st).2.translated =
      st.translated + 1 ∧
    (applyOutcome saveEvery rep cp index context source r elem st).2.usage =
      st.usage.add r.input_tokens r.output_tokens := by
  refine ⟨?_, ?_, ?_⟩ <;> simp [applyOutcome, applyResult, h]

/-- Claim C6: every delay slept before a retry at attempt a equals
min(30, 2 to the a times one half) plus the jitter drawn for that attempt; when
the jitter lies in the interval from 0 to one quarter the whole delay lies
between the base term and the base term plus one quarter; and the base term is
monotone in the attempt number. -/
theorem c6_backoff_formula (adapter : Nat → CallAttempt) (jitter : Nat → ℚ)
    (maxRetries : Nat) (hj : ∀ a, 0 ≤ jitter a ∧ jitter a ≤ 1 / 4) :
    (translate_one_async adapter jitter maxRetries).sleeps =
      (List.range ((translate_one_async adapter jitter maxRetries).calls - 1)).map
        (fun a => backoffBase a + jitter a) ∧
    (∀ d ∈ (translate_one_async adapter jitter maxRetries).sleeps,
      ∃ a, d = backoffBase a + jitter a ∧ backoffBase a ≤ d ∧ d ≤ backoffBase a + 1 / 4) ∧
    (∀ a0 a1 : Nat, a0 < a1 → backoffBase a0 ≤ backoffBase a1) := by
  have hs : (translate_one_async adapter jitter maxRetries).sleeps =
      (List.range' 0 ((translate_one_async adapter jitter maxRetries).calls - 1)).map
        (fun a => backoffBase a + jitter a) :=
    loopGo_sleeps adapter jitter maxRetries 0
  refine ⟨by rw [List.range_eq_range']; exact hs, ?_, ?_⟩
  · intro d hd
    rw [hs] at hd
    obtain ⟨a, _, rfl⟩ := List.mem_map.mp hd
    exact ⟨a, rfl, le_add_of_nonneg_right (hj a).1, by linarith [(hj a).2]⟩
  · intro a0 a1 hlt
    unfold backoffBase
    have h2 : (2 : ℚ) ^ a0 ≤ 2 ^ a1 :=
      pow_le_pow_right₀ (by norm_num) (le_of_lt hlt)
    exact min_le_min le_rfl (by linarith)

/-- Claim C7: intermediate checkpoints go to a side path distinct from the
final output path, and a failed checkpoint write is absorbed: the translation
element and every counter, the usage totals, the failure log and the progress
reports are identical whether the checkpoint writes succeed or fail. -/
theorem c7_checkpoint_failure_isolated (saveEvery : Int) (rep : ProgressReporter)
    (cp1 cp2 : Nat → Bool) (index : Nat) (context source : String)
    (r : TranslateResult) (elem : TranslationElem) (st : RunState) (out : String) :
    partialPath out ≠ out ∧
    (applyOutcome saveEvery rep cp1 index context source r elem st).1 =
      (applyOutcome saveEvery rep cp2 index context source r elem st).1 ∧
    (applyOutcome saveEvery rep cp1 index context source r elem st).2.translated =
      (applyOutcome saveEvery rep cp2 index context source r elem st).2.translated ∧
    (applyOutcome saveEvery rep cp1 index context source r elem st).2.failed =
      (applyOutcome saveEvery rep cp2 index context source r elem st).2.failed ∧
    (applyOutcome saveEvery rep cp1 index context source r elem st).2.skipped =
      (applyOutcome saveEvery rep cp2 index context source r elem st).2.skipped ∧
    (applyOutcome saveEvery rep cp1 index context source r elem st).2.usage =
      (applyOutcome saveEvery rep cp2 index context source r elem st).2.usage ∧
    (applyOutcome saveEvery rep cp1 index context source r elem st).2.failLog =
      (applyOutcome saveEvery rep cp2 index context source r elem st).2.failLog ∧
    (applyOutcome saveEvery rep cp1 index context source r elem st).2.reports =
      (applyOutcome saveEvery rep cp2 index context source r elem st).2.reports := by
  refine ⟨?_, rfl, ?_, ?_, ?_, ?_, ?_, ?_⟩
  · intro hEq
    have hL := congrArg String.length hEq
    have h8 : (".partial" : String).length = 8 := rfl
    rw [partialPath, String.length_append, h8] at hL
    omega
  all_goals simp [applyOutcome]

/-- Claim C8: applying a successful outcome with the same translated text twice
leaves the translation element in the same state as applying it once: the
second application rewrites the same text and keeps the type attribute
removed, with no duplication. -/
theorem c8_success_idempotent (saveEvery : Int) (rep : ProgressReporter)
    (cp : Nat → Bool) (index : Nat) (context source : String) (r : TranslateResult)
    (elem : TranslationElem) (st st2 : RunState) (h : r.ok = true) :
    (applyOutcome saveEvery rep cp index context source r
        (applyOutcome saveEvery rep cp index context source r elem st).1 st2).1 =
      (applyOutcome saveEvery rep cp index context source r elem st).1 ∧
    (applyOutcome saveEvery rep cp index context source r
        (applyOutcome saveEvery rep cp index context source r elem st).1 st2).1.text =
      some r.text := by
  refine ⟨?_, ?_⟩ <;> simp [applyOutcome, applyResult, h]

/-- Claim C9: under the semaphore admission discipline, every state of the
fanned-out tasks reachable from the all-waiting start, along any interleaving,
has at most N tasks simultaneously inside the Translation Call Adapter. -/
theorem c9_concurrency_cap (N n : Nat) (ts : List TaskPhase)
    (h : SemReachable N n ts) : inCallCount ts ≤ N := by
  have h' : Relation.ReflTransGen (SemStep N) (List.replicate n .waiting) ts := h
  clear h
  induction h' with
  | refl => rw [inCallCount_replicate]; exact Nat.zero_le N
  | tail hsteps hstep ih => exact semStep_preserves_cap N _ _ hstep ih

/-- Claim C10: the only non-retried terminations of translate_one_async are a
success and a content_filter result: every invocation either returns a result
that is ok or carries error code "content_filter", or raises a
non-content_filter exception after exactly max_retries + 1 call attempts; and
an exception counts as content_filter exactly when it is a BadRequestError
whose Azure error code is "content_filter". -/
theorem c10_only_success_and_content_filter_unretried
    (adapter : Nat → CallAttempt) (jitter : Nat → ℚ) (maxRetries : Nat) :
    ((∃ r, (translate_one_async adapter jitter maxRetries).outcome = .returned r ∧
        (r.ok = true ∨ r.error_code = "content_filter")) ∨
      (∃ e, (translate_one_async adapter jitter maxRetries).outcome = .raised e ∧
        isContentFilterError e = false ∧
        (translate_one_async adapter jitter maxRetries).calls = maxRetries + 1)) ∧
    (∀ e, isContentFilterError e = true ↔
      (e.isBadRequestError = true ∧ e.errorCode = "content_filter")) := by
  refine ⟨loopGo_outcomes adapter jitter maxRetries 0, ?_⟩
  intro e
  simp [isContentFilterError]

/-- Claim C3 counterexample: in a document with two candidates of which one is
already translated, only one unit is eligible, reporting is enabled with
interval 50, yet at processed = 1 = total_eligible the reporter prints
nothing, because the code compares processed against total_candidates = 2
rather than against the number of eligible units. -/
theorem c3_counterexample :
    (eligibleTargets demoMsgs).length = 1 ∧
    countCandidates demoMsgs = 2 ∧
    (0 : Int) < (reporterFor demoMsgs 50).every ∧
    (reporterFor demoMsgs 50).shouldPrint 1 = false := by
  decide

/-- Claim C3 (amended): maybe_print is a no-op when processed = 0 or the
interval is not positive; otherwise it reports exactly when processed is a
multiple of the interval or processed equals the total candidate count
(eligible plus already-satisfied units) — which is the eligible count only
when no candidate was already satisfied. -/
theorem c3_progress_contract (msgs : List TsMessage) (progressEvery : Int)
    (processed : Nat) :
    (reporterFor msgs progressEvery).shouldPrint processed = true ↔
      0 < progressEvery ∧ processed ≠ 0 ∧
        ((processed : Int) % progressEvery = 0 ∨ processed = countCandidates msgs) := by
  simp only [reporterFor, ProgressReporter.shouldPrint]
  split_ifs with h1 h2 h3
  · simp only [Bool.false_eq_true, false_iff]
    rintro ⟨hpos, -, -⟩
    omega
  · simp only [Bool.false_eq_true, false_iff]
    rintro ⟨-, hne, -⟩
    exact hne h2
  · simp only [Bool.false_eq_true, false_iff]
    rintro ⟨-, -, hor⟩
    rcases hor with hm | ht
    · exact h3.1 hm
    · exact h3.2 ht
  · simp only [true_iff]
    refine ⟨by omega, h2, ?_⟩
    by_cases hm : (processed : Int) % progressEvery = 0
    · exact Or.inl hm
    · exact Or.inr (by_contra fun ht => h3 ⟨hm, ht⟩)

/-- Claim C4: with checkpoint interval 5 and any 12 applied outcomes, in any
completion order, exactly two intermediate checkpoint writes occur, at
processed = 5 and processed = 10, and exactly one unconditional final write to
the output path happens after all tasks have joined. -/
theorem c4_checkpoint_cadence (rep : ProgressReporter) (out : String)
    (items : List WorkItem) (skipped : Nat) (h : items.length = 12) :
    (runFull 5 rep (fun _ => true) out items skipped).1.checkpointsWritten = [5, 10] ∧
    (runFull 5 rep (fun _ => true) out items skipped).2 = [out] := by
  refine ⟨?_, rfl⟩
  show (runSeq 5 rep (fun _ => true) items (initialState skipped)).checkpointsWritten
      = [5, 10]
  rw [runSeq_cw_all_ok, h]
  show ([] : List Nat) ++ (List.range' 1 12).filter (cpFires 5) = [5, 10]
  decide

/-- Claim C1 witness: the content_filter scenario at concrete inputs. -/
theorem c1_witness :
    (translate_one_async demoCfAdapter (fun _ => 0) 6).calls = 1 ∧
    (translate_one_async demoCfAdapter (fun _ => 0) 6).sleeps = [] ∧
    (translate_one_async demoCfAdapter (fun _ => 0) 6).outcome =
      .returned (cfResult demoCfExc) ∧
    (applyOutcome 200 ⟨2, 50⟩ (fun _ => true) 1 "MainForm" "Hello" (cfResult demoCfExc)
        demoElem (initialState 0)).1.typeAttr = some "unfinished" ∧
    (applyOutcome 200 ⟨2, 50⟩ (fun _ => true) 1 "MainForm" "Hello" (cfResult demoCfExc)
        demoElem (initialState 0)).2.failed = 1 ∧
    (applyOutcome 200 ⟨2, 50⟩ (fun _ => true) 1 "MainForm" "Hello" (cfResult demoCfExc)
        demoElem (initialState 0)).2.failLog =
      [⟨1, "MainForm", "Hello", "content_filter"⟩] ∧
    gatherAborts [(translate_one_async demoCfAdapter (fun _ => 0) 6).outcome] = none :=
  c1_content_filter_single_attempt demoCfAdapter (fun _ => 0) 6 demoCfExc (by decide)
    (fun _ => rfl) 200 ⟨2, 50⟩ (fun _ => true) 1 "MainForm" "Hello" demoElem
    (initialState 0)

/-- Claim C2 witness: the exhaustion scenario at max_retries = 2. -/
theorem c2_witness :
    (translate_one_async demoTrAdapter (fun _ => 0) 2).calls = 3 ∧
    (∀ r, (translate_one_async demoTrAdapter (fun _ => 0) 2).outcome ≠ .returned r) ∧
    (∃ e, (translate_one_async demoTrAdapter (fun _ => 0) 2).outcome = .raised e ∧
      gatherAborts [(translate_one_async demoTrAdapter (fun _ => 0) 2).outcome] =
        some e) :=
  c2_exhaustion_aborts_run demoTrAdapter (fun _ => 0) 2
    (fun _ => ⟨demoTrExc, rfl, by decide⟩)

/-- Claim C4 witness: twelve concrete applied outcomes. -/
theorem c4_witness :
    (runFull 5 ⟨12, 50⟩ (fun _ => true) "out.ts" (List.replicate 12 demoItem)
        0).1.checkpointsWritten = [5, 10] ∧
    (runFull 5 ⟨12, 50⟩ (fun _ => true) "out.ts" (List.replicate 12 demoItem) 0).2 =
      ["out.ts"] :=
  c4_checkpoint_cadence ⟨12, 50⟩ "out.ts" (List.replicate 12 demoItem) 0 (by simp)

/-- Claim C5 witness: a concrete successful outcome application. -/
theorem c5_witness :
    (applyOutcome 200 ⟨12, 50⟩ (fun _ => true) 1 "MainForm" "Hello" demoResult demoElem
        (initialState 0)).1 = ⟨some "Hola", none⟩ ∧
    (applyOutcome 200 ⟨12, 50⟩ (fun _ => true) 1 "MainForm" "Hello" demoResult demoElem
        (initialState 0)).2.translated = 1 ∧
    (applyOutcome 200 ⟨12, 50⟩ (fun _ => true) 1 "MainForm" "Hello" demoResult demoElem
        (initialState 0)).2.usage = ⟨3, 4⟩ :=
  c5_success_application 200 ⟨12, 50⟩ (fun _ => true) 1 "MainForm" "Hello" demoResult
    demoElem (initialState 0) rfl

/-- Claim C6 witness: the backoff formula with zero jitter and max_retries = 3. -/
theorem c6_witness :
    (translate_one_async demoTrAdapter (fun _ => 0) 3).sleeps =
      (List.range ((translate_one_async demoTrAdapter (fun _ => 0) 3).calls - 1)).map
        (fun a => backoffBase a + 0) ∧
    (∀ d ∈ (translate_one_async demoTrAdapter (fun _ => 0) 3).sleeps,
      ∃ a, d = backoffBase a + 0 ∧ backoffBase a ≤ d ∧ d ≤ backoffBase a + 1 / 4) ∧
    (∀ a0 a1 : Nat, a0 < a1 → backoffBase a0 ≤ backoffBase a1) :=
  c6_backoff_formula demoTrAdapter (fun _ => 0) 3
    (fun _ => ⟨le_refl 0, by norm_num⟩)

/-- Claim C8 witness: a concrete double application of the same success. -/
theorem c8_witness :
    (applyOutcome 200 ⟨12, 50⟩ (fun _ => true) 1 "MainForm" "Hello" demoResult
        (applyOutcome 200 ⟨12, 50⟩ (fun _ => true) 1 "MainForm" "Hello" demoResult
          demoElem (initialState 0)).1
        (initialState 0)).1 =
      (applyOutcome 200 ⟨12, 50⟩ (fun _ => true) 1 "MainForm" "Hello" demoResult demoElem
        (initialState 0)).1 ∧
    (applyOutcome 200 ⟨12, 50⟩ (fun _ => true) 1 "MainForm" "Hello" demoResult
        (applyOutcome 200 ⟨12, 50⟩ (fun _ => true) 1 "MainForm" "Hello" demoResult
          demoElem (initialState 0)).1
        (initialState 0)).1.text = some "Hola" :=
  c8_success_idempotent 200 ⟨12, 50⟩ (fun _ => true) 1 "MainForm" "Hello" demoResult
    demoElem (initialState 0) (initialState 0) rfl

/-- Claim C9 witness: one acquire step from the all-waiting start with N = 2
and three tasks. -/
theorem c9_witness :
    inCallCount [TaskPhase.inCall, TaskPhase.waiting, TaskPhase.waiting] ≤ 2 := by
  have hstep : SemStep 2 (List.replicate 3 TaskPhase.waiting)
      [TaskPhase.inCall, TaskPhase.waiting, TaskPhase.waiting] :=
    SemStep.acquire (List.replicate 3 TaskPhase.waiting) 0 rfl (by decide)
  exact c9_concurrency_cap 2 3 _ (Relation.ReflTransGen.single hstep)

end TsTranslate
